import Mathlib

/-!
Verification of the Lead Extractor job engine against its specification.

The repository ships the frontend (TypeScript, under web/) and the README
documentation; the backend engine (api_server/services/extractor.py,
lib/filters.py, lib/google_places.py per the README project structure) is not
part of the source tree available here, so the engine components are modelled
from the specification text and the README scoring table, while the frontend
API client (web/src/lib/api.ts) is embedded from its source.
-/

namespace Leadex

/-- Modelled from the spec: venue attributes consumed by the Scorer and the
Quality Filter (lib/filters.py is missing from the tree). `rating` may be
absent; review and photo counts default to 0 when absent. -/
structure Venue where
  name : String
  rating : Option ℚ
  reviewCount : Nat
  photoCount : Nat
  operational : Bool
  hasHours : Bool
  hasPhone : Bool
  hasAddress : Bool
deriving Repr, DecidableEq

/-- Modelled from the spec: rating points of the scoring table.
[4.5,5.0] gives 30, [4.0,4.5) gives 20, [3.5,4.0) gives 10, else 0;
an absent rating gives 0. -/
def ratingPoints : Option ℚ → Int
  | none => 0
  | some r =>
    if 4.5 ≤ r ∧ r ≤ 5 then 30
    else if 4 ≤ r ∧ r < 4.5 then 20
    else if 3.5 ≤ r ∧ r < 4 then 10
    else 0

/-- Modelled from the spec: review-count points. 50 or more gives 30,
10 to 49 gives 20, 1 to 9 gives 10, zero gives 0. -/
def reviewPoints (n : Nat) : Int :=
  if 50 ≤ n then 30 else if 10 ≤ n then 20 else if 1 ≤ n then 10 else 0

/-- Modelled from the spec: photo-count points. 10 or more gives 20,
3 to 9 gives 10, else 0. -/
def photoPoints (n : Nat) : Int :=
  if 10 ≤ n then 20 else if 3 ≤ n then 10 else 0

/-- Characters of a string mapped to lower case, for the case-insensitive
substring match of the negative-keyword penalty. -/
def lowerChars (s : String) : List Char := s.data.map Char.toLower

/-- `containsSub needle hay` decides whether `needle` occurs as a contiguous
sublist of `hay`. -/
def containsSub (needle : List Char) : List Char → Bool
  | [] => needle.isEmpty
  | c :: rest => needle.isPrefixOf (c :: rest) || containsSub needle rest

/-- Modelled from the spec: the venue name contains some configured negative
keyword as a case-insensitive substring. -/
def nameHasKeyword (keywords : List String) (name : String) : Bool :=
  keywords.any (fun k => containsSub (lowerChars k) (lowerChars name))

/-- A sample configured negative-keyword list, from the README examples of
large chains (Walmart, Target, Starbucks, McDonald's). -/
def negativeKeywords : List String :=
  ["walmart", "target", "starbucks", "mcdonald"]

/-- Modelled from the spec: the pre-penalty score, summing rating, review,
photo, operational-status and profile-completeness points. -/
def baseScore (v : Venue) : Int :=
  ratingPoints v.rating + reviewPoints v.reviewCount + photoPoints v.photoCount
    + (if v.operational then 5 else 0)
    + (if v.hasHours then 10 else 0)
    + (if v.hasPhone then 10 else 0)
    + (if v.hasAddress then 10 else 0)

/-- Modelled from the spec: the Scorer. Final score is
max(0, base score minus 50 when the name matches a negative keyword). -/
def leadScore (keywords : List String) (v : Venue) : Int :=
  max 0 (baseScore v - (if nameHasKeyword keywords v.name then 50 else 0))

/-- Modelled from the spec: quality-filter thresholds of a job config
(min rating, min review count, min photo count). -/
structure Thresholds where
  minRating : ℚ
  minReviews : Nat
  minPhotos : Nat
deriving Repr, DecidableEq

/-- Modelled from the spec: the Quality Filter predicate. Always true when
disabled; otherwise the rating (absent rating fails), review-count and
photo-count thresholds are three independent AND conditions. -/
def passes (v : Venue) (t : Thresholds) (enabled : Bool) : Bool :=
  if enabled then
    (match v.rating with
      | none => false
      | some r => decide (t.minRating ≤ r))
      && decide (t.minReviews ≤ v.reviewCount)
      && decide (t.minPhotos ≤ v.photoCount)
  else true

/-- The spec scenario venue: rating 4.7, 120 reviews, 15 photos, operational,
hours, phone and address present, name "Joe's Coffee". -/
def joesCoffee : Venue :=
  { name := "Joe\x27s Coffee", rating := some 4.7, reviewCount := 120,
    photoCount := 15, operational := true, hasHours := true,
    hasPhone := true, hasAddress := true }

/-- The spec scenario venue with the same attributes and name "Starbucks". -/
def chainVenue : Venue :=
  { name := "Starbucks", rating := some 4.7, reviewCount := 120,
    photoCount := 15, operational := true, hasHours := true,
    hasPhone := true, hasAddress := true }

/-- Modelled from the spec: a scored Lead; its identity is the external venue
id, scoped uniquely within a Job, with the computed lead score. -/
structure Lead where
  externalId : String
  name : String
  score : Int
deriving Repr, DecidableEq

/-- Modelled from the spec: a raw venue record streamed by the Harvester,
keyed by the stable external venue id of the directory API. -/
structure RawRecord where
  externalId : String
  venue : Venue
deriving Repr, DecidableEq

/-- Modelled from the spec: the Deduplicator accept operation over the per-run
seen set — true the first time an external id is seen, false thereafter. -/
def dedupAccept (seen : List String) (x : String) : Bool × List String :=
  if x ∈ seen then (false, seen) else (true, x :: seen)

/-- Modelled from the spec: the per-run pipeline Dedup, Filter, Scorer over the
concatenated record streams of all sub-queries, threading the single shared
Deduplicator state through every record of the run. -/
def processRun (kw : List String) (t : Thresholds) (enabled : Bool) :
    List String → List RawRecord → List Lead
  | _, [] => []
  | seen, r :: rest =>
    let acc := dedupAccept seen r.externalId
    if acc.1 then
      if passes r.venue t enabled then
        { externalId := r.externalId, name := r.venue.name,
            score := leadScore kw r.venue }
          :: processRun kw t enabled acc.2 rest
      else processRun kw t enabled acc.2 rest
    else processRun kw t enabled acc.2 rest

/-- Modelled from the spec: job status. -/
inductive Status where
  | queued
  | running
  | completed
  | failed
  | cancelled
deriving Repr, DecidableEq

/-- Modelled from the spec: sort preference of a job config. -/
inductive SortPref where
  | score
  | distance
deriving Repr, DecidableEq

/-- Modelled from the spec: the job config, immutable after creation — name,
center, optional resolved address, radius, category set, quality thresholds,
filter flag and sort preference. -/
structure JobConfig where
  name : String
  centerLat : ℚ
  centerLng : ℚ
  centerAddress : Option String
  radius : Nat
  categories : List String
  thresholds : Thresholds
  useQualityFilters : Bool
  sortBy : SortPref
deriving Repr, DecidableEq

/-- Modelled from the spec: the mutable run state of a job, with the list of
persisted Leads of the current run. -/
structure RunState where
  status : Status
  progress : Nat
  errorMessage : Option String
  totalBusinesses : Nat
  leadsFound : Nat
  leads : List Lead
deriving Repr, DecidableEq

/-- Modelled from the spec: a Job record, config plus run state. -/
structure Job where
  config : JobConfig
  state : RunState
deriving Repr, DecidableEq

/-- The run state of a freshly created or freshly restarted job. -/
def initialRunState : RunState :=
  { status := Status.queued, progress := 0, errorMessage := none,
    totalBusinesses := 0, leadsFound := 0, leads := [] }

/-- Modelled from the spec: the cancel endpoint — a no-op reported as an error
when the job is not running, otherwise the job becomes cancelled. -/
def cancelJob (j : Job) : Job × Option String :=
  if j.state.status = Status.running then
    ({ j with state := { j.state with status := Status.cancelled } }, none)
  else (j, some "Job is not running")

/-- Modelled from the spec: the restart endpoint — only valid from failed or
cancelled; discards prior Leads, resets progress, error and counters, and
re-enqueues with the original config. -/
def restartJob (j : Job) : Job × Option String :=
  if j.state.status = Status.failed ∨ j.state.status = Status.cancelled then
    ({ config := j.config, state := initialRunState }, none)
  else (j, some "Only failed or cancelled jobs can be restarted")

/-- The transition table stated by the claim: queued to running; running to
exactly one of completed, failed, cancelled; failed or cancelled back to
queued via explicit restart. -/
def legalTransition (a b : Status) : Prop :=
  (a = Status.queued ∧ b = Status.running) ∨
  (a = Status.running ∧
    (b = Status.completed ∨ b = Status.failed ∨ b = Status.cancelled)) ∨
  ((a = Status.failed ∨ a = Status.cancelled) ∧ b = Status.queued)

/-- Modelled from the spec: one event of a worker run — pick up the queued
job, report a progress measurement (total businesses seen and the current
estimated total), persist a Lead, finish normally, fail with a message, or
observe the cancellation signal. -/
inductive RunStep where
  | start : RunStep
  | report (seen est : Nat) : RunStep
  | addLead (l : Lead) : RunStep
  | finish : RunStep
  | failWith (msg : String) : RunStep
  | stop : RunStep
deriving Repr, DecidableEq

/-- Modelled from the spec: the progress update
min(100, 100 * total_businesses_seen / estimated_total), applied as a
monotonic non-decreasing update that never moves progress backward. -/
def updateProgress (s : RunState) (seen est : Nat) : RunState :=
  { s with totalBusinesses := seen,
           progress := max s.progress (min 100 (100 * seen / est)) }

/-- Modelled from the spec: the orchestrator's reaction to one run event; each
event is guarded by the status it requires and leaves any other state
unchanged. -/
def stepRun (s : RunState) : RunStep → RunState
  | RunStep.start =>
    if s.status = Status.queued then { s with status := Status.running } else s
  | RunStep.report seen est =>
    if s.status = Status.running then updateProgress s seen est else s
  | RunStep.addLead l =>
    if s.status = Status.running then
      { s with leads := s.leads ++ [l], leadsFound := s.leadsFound + 1 }
    else s
  | RunStep.finish =>
    if s.status = Status.running then
      { s with status := Status.completed, progress := 100 }
    else s
  | RunStep.failWith m =>
    if s.status = Status.running then
      { s with status := Status.failed, errorMessage := some m }
    else s
  | RunStep.stop =>
    if s.status = Status.running then { s with status := Status.cancelled }
    else s

/-- A worker run: the orchestrator folds the event sequence over the state. -/
def runTrace (s : RunState) (tr : List RunStep) : RunState :=
  tr.foldl stepRun s

/-- A concrete job config for witnesses. -/
def sampleConfig : JobConfig :=
  { name := "bakeries near center", centerLat := 0, centerLng := 0,
    centerAddress := some "Main St 1", radius := 5000,
    categories := ["bakery"],
    thresholds := { minRating := 4, minReviews := 10, minPhotos := 3 },
    useQualityFilters := true, sortBy := SortPref.score }

/-- A concrete failed job with prior run state and one persisted Lead. -/
def sampleFailedJob : Job :=
  { config := sampleConfig,
    state := { status := Status.failed, progress := 42,
               errorMessage := some "quota exceeded", totalBusinesses := 10,
               leadsFound := 1,
               leads := [{ externalId := "gp1", name := "Bakery A",
                           score := 80 }] } }

/-- Modelled from the spec: one bounded sub-query of the Search Planner, with
the center and radius of the request and a category, `none` meaning "all
categories". -/
structure SubQuery where
  centerLat : ℚ
  centerLng : ℚ
  radius : Nat
  category : Option String
deriving Repr, DecidableEq

/-- Modelled from the spec: the Search Planner — one sub-query per category
with the same center and radius, and a single "all categories" sub-query when
the category set is empty. A pure function, no I/O. -/
def planSearch (lat lng : ℚ) (rad : Nat) (cats : List String) :
    List SubQuery :=
  match cats with
  | [] =>
    [{ centerLat := lat, centerLng := lng, radius := rad, category := none }]
  | c :: rest =>
    (c :: rest).map fun cat =>
      { centerLat := lat, centerLng := lng, radius := rad,
        category := some cat }

/-- A parsed JSON response body, abstracted to the optional `detail` string
read by the error path of the client plus an opaque payload. -/
structure JsonBody where
  detail : Option String
  payload : String
deriving Repr, DecidableEq

/-- An HTTP response as observed by the frontend client: the ok flag and the
parsed JSON body, `none` when the body text is not parseable JSON. -/
structure ApiResponse where
  ok : Bool
  body : Option JsonBody
deriving Repr, DecidableEq

/-- Embedded from web/src/lib/api.ts, fetchApi: on a non-ok response, parse
the body — falling back to a body whose detail is "Request failed" when
parsing fails — and throw an Error with message detail-or-"Request failed",
where per JavaScript truthiness a present but empty detail string also falls
back; on an ok response return the parsed JSON body (a non-parseable body on
the ok path surfaces the JSON parse error of response.json()). -/
def fetchApi (r : ApiResponse) : Except String JsonBody :=
  if r.ok then
    match r.body with
    | some b => Except.ok b
    | none => Except.error "Unexpected end of JSON input"
  else
    let b := r.body.getD { detail := some "Request failed", payload := "" }
    Except.error
      (match b.detail with
        | some d => if d = "" then "Request failed" else d
        | none => "Request failed")

lemma ratingPoints_bounds (o : Option ℚ) :
    0 ≤ ratingPoints o ∧ ratingPoints o ≤ 30 := by
  cases o with
  | none => simp [ratingPoints]
  | some r =>
    simp only [ratingPoints]
    split_ifs <;> norm_num

lemma reviewPoints_bounds (n : Nat) :
    0 ≤ reviewPoints n ∧ reviewPoints n ≤ 30 := by
  simp only [reviewPoints]
  split_ifs <;> norm_num

lemma photoPoints_bounds (n : Nat) :
    0 ≤ photoPoints n ∧ photoPoints n ≤ 20 := by
  simp only [photoPoints]
  split_ifs <;> norm_num

lemma baseScore_bounds (v : Venue) : 0 ≤ baseScore v ∧ baseScore v ≤ 165 := by
  obtain ⟨h1, h2⟩ := ratingPoints_bounds v.rating
  obtain ⟨h3, h4⟩ := reviewPoints_bounds v.reviewCount
  obtain ⟨h5, h6⟩ := photoPoints_bounds v.photoCount
  simp only [baseScore]
  split_ifs <;> omega

/-- Claim C1: the Scorer is the documented point table. Rating in [4.5,5.0]
gives 30, [4.0,4.5) gives 20, [3.5,4.0) gives 10, below 3.5 (or absent) 0;
review count at least 50 gives 30, 10 to 49 gives 20, 1 to 9 gives 10, zero 0;
photo count at least 10 gives 20, 3 to 9 gives 10, below 3 gives 0; operational
status adds 5; published hours, phone and physical address add 10 each,
independently; a negative-keyword match subtracts 50; the final score is
max(0, sum). The spec scenarios evaluate to 115 for "Joe's Coffee" and 65 for
"Starbucks". The Scorer is a Lean function, hence pure and deterministic. -/
theorem c1_scorer_point_table :
    (∀ r : ℚ, 4.5 ≤ r → r ≤ 5 → ratingPoints (some r) = 30) ∧
    (∀ r : ℚ, 4 ≤ r → r < 4.5 → ratingPoints (some r) = 20) ∧
    (∀ r : ℚ, 3.5 ≤ r → r < 4 → ratingPoints (some r) = 10) ∧
    (∀ r : ℚ, r < 3.5 → ratingPoints (some r) = 0) ∧
    ratingPoints none = 0 ∧
    (∀ n, 50 ≤ n → reviewPoints n = 30) ∧
    (∀ n, 10 ≤ n → n ≤ 49 → reviewPoints n = 20) ∧
    (∀ n, 1 ≤ n → n ≤ 9 → reviewPoints n = 10) ∧
    reviewPoints 0 = 0 ∧
    (∀ n, 10 ≤ n → photoPoints n = 20) ∧
    (∀ n, 3 ≤ n → n ≤ 9 → photoPoints n = 10) ∧
    (∀ n, n < 3 → photoPoints n = 0) ∧
    (∀ v, baseScore v =
      ratingPoints v.rating + reviewPoints v.reviewCount
        + photoPoints v.photoCount + (if v.operational then 5 else 0)
        + (if v.hasHours then 10 else 0) + (if v.hasPhone then 10 else 0)
        + (if v.hasAddress then 10 else 0)) ∧
    (∀ kw v, nameHasKeyword kw v.name = true →
      leadScore kw v = max 0 (baseScore v - 50)) ∧
    (∀ kw v, nameHasKeyword kw v.name = false →
      leadScore kw v = max 0 (baseScore v)) ∧
    (∀ kw, nameHasKeyword kw joesCoffee.name = false →
      leadScore kw joesCoffee = 115) ∧
    (∀ kw, nameHasKeyword kw chainVenue.name = true →
      leadScore kw chainVenue = 65) := by
  refine ⟨?_, ?_, ?_, ?_, rfl, ?_, ?_, ?_, rfl, ?_, ?_, ?_,
    fun v => rfl, ?_, ?_, ?_, ?_⟩
  · intro r h1 h2
    simp only [ratingPoints]
    rw [if_pos ⟨h1, h2⟩]
  · intro r h1 h2
    simp only [ratingPoints]
    rw [if_neg, if_pos ⟨h1, h2⟩]
    rintro ⟨h3, -⟩
    linarith
  · intro r h1 h2
    simp only [ratingPoints]
    rw [if_neg, if_neg, if_pos ⟨h1, h2⟩]
    · rintro ⟨h3, -⟩
      linarith
    · rintro ⟨h3, -⟩
      linarith
  · intro r h1
    simp only [ratingPoints]
    rw [if_neg, if_neg, if_neg]
    · rintro ⟨h3, -⟩
      linarith
    · rintro ⟨h3, -⟩
      linarith
    · rintro ⟨h3, -⟩
      linarith
  · intro n h
    simp only [reviewPoints]
    rw [if_pos h]
  · intro n h1 h2
    simp only [reviewPoints]
    rw [if_neg (by omega), if_pos h1]
  · intro n h1 h2
    simp only [reviewPoints]
    rw [if_neg (by omega), if_neg (by omega), if_pos h1]
  · intro n h
    simp only [photoPoints]
    rw [if_pos h]
  · intro n h1 h2
    simp only [photoPoints]
    rw [if_neg (by omega), if_pos h1]
  · intro n h
    simp only [photoPoints]
    rw [if_neg (by omega), if_neg (by omega)]
  · intro kw v h
    simp [leadScore, h]
  · intro kw v h
    simp [leadScore, h]
  · intro kw h
    simp only [leadScore, h, if_neg Bool.false_ne_true]
    norm_num [baseScore, ratingPoints, reviewPoints, photoPoints, joesCoffee]
  · intro kw h
    simp only [leadScore, h, if_pos rfl]
    norm_num [baseScore, ratingPoints, reviewPoints, photoPoints, chainVenue]

/-- Witness for C1: the hypotheses are satisfiable on concrete inputs — the
configured README keyword list matches "Starbucks" and not "Joe's Coffee",
giving the spec scenario scores 115 and 65, and a 4.7 rating earns 30. -/
theorem c1_scorer_point_table_witness :
    ratingPoints (some (mkRat 47 10)) = 30 ∧
    leadScore negativeKeywords joesCoffee = 115 ∧
    leadScore negativeKeywords chainVenue = 65 :=
  ⟨c1_scorer_point_table.1 (mkRat 47 10)
      (by norm_num [mkRat, Rat.normalize]) (by norm_num [mkRat, Rat.normalize]),
   (c1_scorer_point_table.2.2.2.2.2.2.2.2.2.2.2.2.2.2.2.1)
      negativeKeywords (by decide),
   (c1_scorer_point_table.2.2.2.2.2.2.2.2.2.2.2.2.2.2.2.2)
      negativeKeywords (by decide)⟩

/-- Claim C2: the pre-penalty score of every venue lies in [0,165], and the
final score, after the negative-keyword penalty and the max(0, sum) floor,
is never negative, for every keyword configuration and attribute
combination. -/
theorem c2_score_bounds (kw : List String) (v : Venue) :
    (0 ≤ baseScore v ∧ baseScore v ≤ 165) ∧ 0 ≤ leadScore kw v :=
  ⟨baseScore_bounds v, le_max_left 0 _⟩

/-- Claim C3: the Quality Filter passes everything when disabled; when enabled
it passes exactly the venues meeting all three thresholds (an absent rating
fails); and with thresholds 4.0/10/3 every venue rated 3.9 is excluded
regardless of its other attributes. -/
theorem c3_quality_filter :
    (∀ v t, passes v t false = true) ∧
    (∀ v t, passes v t true = true ↔
      ((∃ r, v.rating = some r ∧ t.minRating ≤ r) ∧
        t.minReviews ≤ v.reviewCount ∧ t.minPhotos ≤ v.photoCount)) ∧
    (∀ v t, v.rating = none → passes v t true = false) ∧
    (∀ v : Venue, v.rating = some 3.9 →
      passes v { minRating := 4, minReviews := 10, minPhotos := 3 } true
        = false) := by
  refine ⟨fun v t => rfl, ?_, ?_, ?_⟩
  · intro v t
    cases h : v.rating with
    | none => simp [passes, h]
    | some r => simp [passes, h, and_assoc]
  · intro v t h
    simp [passes, h]
  · intro v h
    simp only [passes, h]
    rw [decide_eq_false (by norm_num : ¬ ((4:ℚ) ≤ 3.9))]
    simp

/-- Witness for C3: a concrete venue rated 3.9 with strong other attributes is
excluded by the enabled 4.0/10/3 filter. -/
theorem c3_quality_filter_witness :
    passes
      { name := "Diner", rating := some 3.9, reviewCount := 500,
        photoCount := 40, operational := true, hasHours := true,
        hasPhone := true, hasAddress := true }
      { minRating := 4, minReviews := 10, minPhotos := 3 } true = false :=
  c3_quality_filter.2.2.2
    { name := "Diner", rating := some 3.9, reviewCount := 500,
      photoCount := 40, operational := true, hasHours := true,
      hasPhone := true, hasAddress := true } rfl

lemma processRun_ids (kw : List String) (t : Thresholds) (enabled : Bool) :
    ∀ (recs : List RawRecord) (seen : List String),
      (∀ l ∈ processRun kw t enabled seen recs, l.externalId ∉ seen) ∧
      ((processRun kw t enabled seen recs).map
        (fun l => l.externalId)).Nodup := by
  intro recs
  induction recs with
  | nil => intro seen; simp [processRun]
  | cons r rest ih =>
    intro seen
    by_cases hm : r.externalId ∈ seen
    · have he : processRun kw t enabled seen (r :: rest)
          = processRun kw t enabled seen rest := by
        simp [processRun, dedupAccept, hm]
      rw [he]
      exact ih seen
    · obtain ⟨ihA, ihB⟩ := ih (r.externalId :: seen)
      have hsub : ∀ l ∈ processRun kw t enabled (r.externalId :: seen) rest,
          l.externalId ≠ r.externalId ∧ l.externalId ∉ seen := by
        intro l hl
        have hin := ihA l hl
        simp only [List.mem_cons, not_or] at hin
        exact hin
      by_cases hp : passes r.venue t enabled
      · have he : processRun kw t enabled seen (r :: rest)
            = { externalId := r.externalId, name := r.venue.name,
                  score := leadScore kw r.venue }
                :: processRun kw t enabled (r.externalId :: seen) rest := by
          simp [processRun, dedupAccept, hm, hp]
        rw [he]
        constructor
        · intro l hl
          rcases List.mem_cons.mp hl with h | h
          · subst h; exact hm
          · exact (hsub l h).2
        · simp only [List.map_cons, List.nodup_cons]
          refine ⟨?_, ihB⟩
          intro hmem
          obtain ⟨l, hl, he2⟩ := List.mem_map.mp hmem
          exact (hsub l hl).1 he2
      · have he : processRun kw t enabled seen (r :: rest)
            = processRun kw t enabled (r.externalId :: seen) rest := by
          simp [processRun, dedupAccept, hm, hp]
        rw [he]
        exact ⟨fun l hl => (hsub l hl).2, ihB⟩

/-- Claim C4: the Deduplicator accepts an external id exactly when it has not
been seen in the run, rejects every subsequent occurrence of an accepted id,
and the run pipeline — one shared Deduplicator threaded through the
concatenated record streams of all sub-queries — never emits two Leads with
the same external venue id. -/
theorem c4_dedup_no_duplicate_leads :
    (∀ seen x, (dedupAccept seen x).1 = true ↔ x ∉ seen) ∧
    (∀ seen x, (dedupAccept (dedupAccept seen x).2 x).1 = false) ∧
    (∀ kw t enabled recs,
      ((processRun kw t enabled [] recs).map
        (fun l => l.externalId)).Nodup) := by
  refine ⟨?_, ?_, ?_⟩
  · intro seen x
    by_cases h : x ∈ seen <;> simp [dedupAccept, h]
  · intro seen x
    by_cases h : x ∈ seen <;> simp [dedupAccept, h]
  · intro kw t enabled recs
    exact (processRun_ids kw t enabled recs []).2

lemma stepRun_progress (s : RunState) (e : RunStep) (h : s.progress ≤ 100) :
    (stepRun s e).progress ≤ 100 ∧ s.progress ≤ (stepRun s e).progress := by
  cases e with
  | report seen est =>
    simp only [stepRun]
    split_ifs with hs
    · simp only [updateProgress]
      generalize 100 * seen / est = d
      omega
    · exact ⟨h, le_refl _⟩
  | start => simp only [stepRun]; split_ifs <;> exact ⟨h, le_refl _⟩
  | addLead l => simp only [stepRun]; split_ifs <;> exact ⟨h, le_refl _⟩
  | finish => simp only [stepRun]; split_ifs <;> simp [h]
  | failWith m => simp only [stepRun]; split_ifs <;> exact ⟨h, le_refl _⟩
  | stop => simp only [stepRun]; split_ifs <;> exact ⟨h, le_refl _⟩

lemma runTrace_progress :
    ∀ (tr : List RunStep) (s : RunState), s.progress ≤ 100 →
      (runTrace s tr).progress ≤ 100 ∧
        s.progress ≤ (runTrace s tr).progress := by
  intro tr
  induction tr with
  | nil => intro s h; exact ⟨h, le_refl _⟩
  | cons e rest ih =>
    intro s h
    obtain ⟨h1, h2⟩ := stepRun_progress s e h
    obtain ⟨h3, h4⟩ := ih (stepRun s e) h1
    exact ⟨h3, le_trans h2 h4⟩

lemma stepRun_completed (s : RunState) (e : RunStep)
    (h : s.status = Status.completed → s.progress = 100) :
    (stepRun s e).status = Status.completed →
      (stepRun s e).progress = 100 := by
  cases e with
  | start =>
    simp only [stepRun]
    split_ifs with hs
    · intro hc
      exact hc.elim
    · exact h
  | report seen est =>
    simp only [stepRun]
    split_ifs with hs
    · intro hc
      have hcc : s.status = Status.completed := hc
      rw [hs] at hcc
      exact Status.noConfusion hcc
    · exact h
  | addLead l =>
    simp only [stepRun]
    split_ifs with hs
    · intro hc
      have hcc : s.status = Status.completed := hc
      rw [hs] at hcc
      exact Status.noConfusion hcc
    · exact h
  | finish =>
    simp only [stepRun]
    split_ifs with hs
    · intro _
      rfl
    · exact h
  | failWith m =>
    simp only [stepRun]
    split_ifs with hs
    · intro hc
      exact hc.elim
    · exact h
  | stop =>
    simp only [stepRun]
    split_ifs with hs
    · intro hc
      exact hc.elim
    · exact h

lemma runTrace_completed :
    ∀ (tr : List RunStep) (s : RunState),
      (s.status = Status.completed → s.progress = 100) →
      (runTrace s tr).status = Status.completed →
        (runTrace s tr).progress = 100 := by
  intro tr
  induction tr with
  | nil => intro s h; exact h
  | cons e rest ih =>
    intro s h
    exact ih (stepRun s e) (stepRun_completed s e h)

lemma stepRun_terminal (s : RunState) (e : RunStep)
    (h1 : s.status ≠ Status.queued) (h2 : s.status ≠ Status.running) :
    stepRun s e = s := by
  cases e <;> simp [stepRun, h1, h2]

lemma runTrace_terminal :
    ∀ (tr : List RunStep) (s : RunState), s.status ≠ Status.queued →
      s.status ≠ Status.running → runTrace s tr = s := by
  intro tr
  induction tr with
  | nil => intro s _ _; rfl
  | cons e rest ih =>
    intro s h1 h2
    have he : stepRun s e = s := stepRun_terminal s e h1 h2
    show runTrace (stepRun s e) rest = s
    rw [he]
    exact ih s h1 h2

/-- Claim C5: cancel succeeds exactly on a running job and yields a cancelled
job; restart succeeds exactly on a failed or cancelled job and yields a queued
job; either call on any other state is reported as an error with the job left
unchanged; and every state change made by cancel, restart or a worker step is
a transition of the table queued to running, running to completed, failed or
cancelled, and failed or cancelled to queued. All the operations are total
Lean functions, so no call crashes. -/
theorem c5_lifecycle_transitions :
    (∀ j : Job, (cancelJob j).2 = none ↔ j.state.status = Status.running) ∧
    (∀ j : Job, j.state.status = Status.running →
      (cancelJob j).1.state.status = Status.cancelled) ∧
    (∀ j : Job, j.state.status ≠ Status.running →
      (cancelJob j).1 = j ∧ (cancelJob j).2 ≠ none) ∧
    (∀ j : Job, (restartJob j).2 = none ↔
      (j.state.status = Status.failed ∨ j.state.status = Status.cancelled)) ∧
    (∀ j : Job,
      (j.state.status = Status.failed ∨ j.state.status = Status.cancelled) →
      (restartJob j).1.state.status = Status.queued) ∧
    (∀ j : Job,
      ¬(j.state.status = Status.failed ∨ j.state.status = Status.cancelled) →
      (restartJob j).1 = j ∧ (restartJob j).2 ≠ none) ∧
    (∀ j : Job, (cancelJob j).1.state.status = j.state.status ∨
      legalTransition j.state.status (cancelJob j).1.state.status) ∧
    (∀ j : Job, (restartJob j).1.state.status = j.state.status ∨
      legalTransition j.state.status (restartJob j).1.state.status) ∧
    (∀ (s : RunState) (e : RunStep), (stepRun s e).status = s.status ∨
      legalTransition s.status (stepRun s e).status) := by
  refine ⟨?_, ?_, ?_, ?_, ?_, ?_, ?_, ?_, ?_⟩
  · intro j
    by_cases h : j.state.status = Status.running <;> simp [cancelJob, h]
  · intro j h
    simp [cancelJob, h]
  · intro j h
    simp [cancelJob, h]
  · intro j
    by_cases h : j.state.status = Status.failed ∨
        j.state.status = Status.cancelled <;>
      simp [restartJob, h]
  · intro j h
    simp [restartJob, h, initialRunState]
  · intro j h
    simp [restartJob, h]
  · intro j
    by_cases h : j.state.status = Status.running
    · right
      simp [cancelJob, h, legalTransition]
    · left
      simp [cancelJob, h]
  · intro j
    by_cases h : j.state.status = Status.failed ∨
        j.state.status = Status.cancelled
    · right
      simp only [restartJob, if_pos h, initialRunState, legalTransition]
      tauto
    · left
      simp [restartJob, h]
  · intro s e
    cases e <;> simp only [stepRun] <;> split_ifs with hs <;>
      simp [legalTransition, updateProgress, hs]

/-- Witness for C5: on a concrete running job, cancel succeeds and yields a
cancelled job; on a concrete failed job, cancel is rejected unchanged and
restart succeeds into queued; on the running job, restart is rejected
unchanged. -/
theorem c5_lifecycle_transitions_witness :
    (cancelJob
        { config :=
            { name := "a", centerLat := 0, centerLng := 0,
              centerAddress := none, radius := 1000, categories := [],
              thresholds := { minRating := 0, minReviews := 0, minPhotos := 0 },
              useQualityFilters := false, sortBy := SortPref.score },
          state := { initialRunState with status := Status.running }
        }).1.state.status = Status.cancelled ∧
    (restartJob
        { config :=
            { name := "a", centerLat := 0, centerLng := 0,
              centerAddress := none, radius := 1000, categories := [],
              thresholds := { minRating := 0, minReviews := 0, minPhotos := 0 },
              useQualityFilters := false, sortBy := SortPref.score },
          state := { initialRunState with status := Status.failed }
        }).1.state.status = Status.queued ∧
    (cancelJob
        { config :=
            { name := "a", centerLat := 0, centerLng := 0,
              centerAddress := none, radius := 1000, categories := [],
              thresholds := { minRating := 0, minReviews := 0, minPhotos := 0 },
              useQualityFilters := false, sortBy := SortPref.score },
          state := { initialRunState with status := Status.failed }
        }).1 =
      { config :=
          { name := "a", centerLat := 0, centerLng := 0,
            centerAddress := none, radius := 1000, categories := [],
            thresholds := { minRating := 0, minReviews := 0, minPhotos := 0 },
            useQualityFilters := false, sortBy := SortPref.score },
        state := { initialRunState with status := Status.failed } } :=
  ⟨c5_lifecycle_transitions.2.1 _ rfl,
   c5_lifecycle_transitions.2.2.2.2.1 _ (Or.inl rfl),
   (c5_lifecycle_transitions.2.2.1 _ (by simp [initialRunState])).1⟩

/-- Claim C6 (amended): during a run, progress is monotonically non-decreasing
— across any split of the event sequence — and never exceeds 100, and a
completed job has progress 100; but progress may reach 100 before completion,
so progress 100 does not imply status completed. -/
theorem c6_progress_monotone :
    (∀ (s : RunState) (tr : List RunStep), s.progress ≤ 100 →
      (runTrace s tr).progress ≤ 100 ∧
        s.progress ≤ (runTrace s tr).progress) ∧
    (∀ (s : RunState) (tr1 tr2 : List RunStep), s.progress ≤ 100 →
      (runTrace s tr1).progress ≤ (runTrace s (tr1 ++ tr2)).progress) ∧
    (∀ (s : RunState) (tr : List RunStep),
      (s.status = Status.completed → s.progress = 100) →
      (runTrace s tr).status = Status.completed →
        (runTrace s tr).progress = 100) := by
  refine ⟨fun s tr h => runTrace_progress tr s h, ?_,
    fun s tr h => runTrace_completed tr s h⟩
  intro s tr1 tr2 h
  have h1 := runTrace_progress tr1 s h
  have h2 := runTrace_progress tr2 (runTrace s tr1) h1.1
  show (runTrace s tr1).progress ≤ (List.foldl stepRun s (tr1 ++ tr2)).progress
  rw [List.foldl_append]
  exact h2.2

/-- Witness for C6: a concrete fresh run, started and reporting 3 of an
estimated 10 businesses, has progress at most 100 and not below its initial
progress. -/
theorem c6_progress_monotone_witness :
    (runTrace initialRunState
      [RunStep.start, RunStep.report 3 10]).progress ≤ 100 ∧
    initialRunState.progress ≤
      (runTrace initialRunState
        [RunStep.start, RunStep.report 3 10]).progress :=
  c6_progress_monotone.1 initialRunState
    [RunStep.start, RunStep.report 3 10] (by decide)

/-- Counterexample for C6 as stated: when the businesses seen reach the
current estimate while the run is still going — here 5 of an estimated 5 —
the spec's update formula min(100, 100 * seen / estimate) drives progress to
100 with the job still running, so progress 100 does not imply status
completed. -/
theorem c6_progress_100_while_running :
    (runTrace initialRunState
      [RunStep.start, RunStep.report 5 5]).progress = 100 ∧
    (runTrace initialRunState
      [RunStep.start, RunStep.report 5 5]).status = Status.running ∧
    Status.running ≠ Status.completed := by
  decide

/-- Claim C9: observing the cancellation signal while running turns the job
cancelled — never failed — and keeps every Lead persisted so far; a failure
also keeps the Leads gathered so far; and once cancelled or failed, no run
event has any further effect, so no Lead is ever added afterward. -/
theorem c9_cancel_retains_leads :
    (∀ s : RunState, s.status = Status.running →
      (stepRun s RunStep.stop).status = Status.cancelled ∧
      (stepRun s RunStep.stop).status ≠ Status.failed ∧
      (stepRun s RunStep.stop).leads = s.leads) ∧
    (∀ (s : RunState) (m : String),
      (stepRun s (RunStep.failWith m)).leads = s.leads) ∧
    (∀ (s : RunState) (tr : List RunStep), s.status = Status.cancelled →
      runTrace s tr = s) ∧
    (∀ (s : RunState) (tr : List RunStep), s.status = Status.failed →
      runTrace s tr = s) := by
  refine ⟨?_, ?_, ?_, ?_⟩
  · intro s h
    refine ⟨by simp [stepRun, h], ?_, by simp [stepRun, h]⟩
    simp [stepRun, h]
  · intro s m
    simp only [stepRun]
    split_ifs <;> rfl
  · intro s tr h
    exact runTrace_terminal tr s (by rw [h]; decide) (by rw [h]; decide)
  · intro s tr h
    exact runTrace_terminal tr s (by rw [h]; decide) (by rw [h]; decide)

/-- Witness for C9: cancelling a concrete running job with one persisted Lead
keeps that Lead, and replaying further events — including an attempted Lead
insertion — on the cancelled state changes nothing. -/
theorem c9_cancel_retains_leads_witness :
    (stepRun
      { status := Status.running, progress := 40, errorMessage := none,
        totalBusinesses := 7, leadsFound := 1,
        leads := [{ externalId := "gp1", name := "Bakery A", score := 80 }] }
      RunStep.stop).leads
      = [{ externalId := "gp1", name := "Bakery A", score := 80 }] ∧
    runTrace
      { status := Status.cancelled, progress := 40, errorMessage := none,
        totalBusinesses := 7, leadsFound := 1,
        leads := [{ externalId := "gp1", name := "Bakery A", score := 80 }] }
      [RunStep.addLead { externalId := "gp2", name := "Bakery B", score := 60 },
        RunStep.start]
      = { status := Status.cancelled, progress := 40, errorMessage := none,
          totalBusinesses := 7, leadsFound := 1,
          leads := [{ externalId := "gp1", name := "Bakery A", score := 80 }] } :=
  ⟨(c9_cancel_retains_leads.1 _ rfl).2.2,
   c9_cancel_retains_leads.2.2.1 _ _ rfl⟩

/-- Claim C8: restarting a failed or cancelled job succeeds, resets progress
to 0, clears the error message, resets both counters, removes all prior Leads,
re-enters the job at queued, and reuses the config unchanged — every config
field byte-identical to the original. -/
theorem c8_restart_resets_and_keeps_config (j : Job)
    (h : j.state.status = Status.failed ∨ j.state.status = Status.cancelled) :
    (restartJob j).2 = none ∧
    (restartJob j).1.state.status = Status.queued ∧
    (restartJob j).1.state.progress = 0 ∧
    (restartJob j).1.state.errorMessage = none ∧
    (restartJob j).1.state.totalBusinesses = 0 ∧
    (restartJob j).1.state.leadsFound = 0 ∧
    (restartJob j).1.state.leads = [] ∧
    (restartJob j).1.config = j.config := by
  unfold restartJob
  rw [if_pos h]
  simp [initialRunState]

/-- Witness for C8: restarting the concrete failed job clears its run state
and keeps its config. -/
theorem c8_restart_resets_and_keeps_config_witness :
    (restartJob sampleFailedJob).2 = none ∧
    (restartJob sampleFailedJob).1.state.status = Status.queued ∧
    (restartJob sampleFailedJob).1.state.progress = 0 ∧
    (restartJob sampleFailedJob).1.state.errorMessage = none ∧
    (restartJob sampleFailedJob).1.state.totalBusinesses = 0 ∧
    (restartJob sampleFailedJob).1.state.leadsFound = 0 ∧
    (restartJob sampleFailedJob).1.state.leads = [] ∧
    (restartJob sampleFailedJob).1.config = sampleFailedJob.config :=
  c8_restart_resets_and_keeps_config sampleFailedJob (Or.inl rfl)

/-- Claim C7: with more than one category the planner emits exactly one
sub-query per category, in category order, each with the center and radius of
the request; with an empty category set it emits the single "all categories"
sub-query; and its ordered output is never empty. As a Lean function it is
pure and performs no I/O. -/
theorem c7_planner_one_query_per_category :
    (∀ (lat lng : ℚ) (rad : Nat) (cats : List String), 1 < cats.length →
      (planSearch lat lng rad cats).length = cats.length ∧
      planSearch lat lng rad cats = cats.map (fun c =>
        { centerLat := lat, centerLng := lng, radius := rad,
          category := some c }) ∧
      ∀ q ∈ planSearch lat lng rad cats,
        q.centerLat = lat ∧ q.centerLng = lng ∧ q.radius = rad) ∧
    (∀ (lat lng : ℚ) (rad : Nat), planSearch lat lng rad [] =
      [{ centerLat := lat, centerLng := lng, radius := rad,
          category := none }]) ∧
    (∀ (lat lng : ℚ) (rad : Nat) (cats : List String),
      planSearch lat lng rad cats ≠ []) := by
  refine ⟨?_, fun lat lng rad => rfl, ?_⟩
  · intro lat lng rad cats hlen
    cases cats with
    | nil => simp at hlen
    | cons c rest =>
      refine ⟨by simp [planSearch], rfl, ?_⟩
      intro q hq
      simp only [planSearch, List.mem_map] at hq
      obtain ⟨cat, -, rfl⟩ := hq
      exact ⟨rfl, rfl, rfl⟩
  · intro lat lng rad cats
    cases cats <;> simp [planSearch]

/-- Witness for C7: for a two-category request the plan has one sub-query per
category, in order, sharing the request's center and radius. -/
theorem c7_planner_one_query_per_category_witness :
    (planSearch 0 0 5000 ["cafe", "bar"]).length
        = (["cafe", "bar"] : List String).length ∧
    planSearch 0 0 5000 ["cafe", "bar"] = ["cafe", "bar"].map (fun c =>
      { centerLat := 0, centerLng := 0, radius := 5000,
        category := some c }) :=
  ⟨(c7_planner_one_query_per_category.1 0 0 5000 ["cafe", "bar"]
      (by decide)).1,
   (c7_planner_one_query_per_category.1 0 0 5000 ["cafe", "bar"]
      (by decide)).2.1⟩

/-- Claim C10 (amended): on a non-ok response fetchApi never returns a value;
it throws with the body's detail string when the body parses and carries a
truthy (non-empty) detail, and falls back to "Request failed" when the body is
not parseable JSON, has no detail, or has an empty-string detail; on an ok
response with a parseable body it returns that parsed body. -/
theorem c10_fetchApi_error_handling :
    (∀ (r : ApiResponse) (b : JsonBody), r.ok = false →
      fetchApi r ≠ Except.ok b) ∧
    (∀ (r : ApiResponse) (b : JsonBody) (d : String), r.ok = false →
      r.body = some b → b.detail = some d → d ≠ "" →
      fetchApi r = Except.error d) ∧
    (∀ (r : ApiResponse) (b : JsonBody), r.ok = false → r.body = some b →
      (b.detail = none ∨ b.detail = some "") →
      fetchApi r = Except.error "Request failed") ∧
    (∀ r : ApiResponse, r.ok = false → r.body = none →
      fetchApi r = Except.error "Request failed") ∧
    (∀ (r : ApiResponse) (b : JsonBody), r.ok = true → r.body = some b →
      fetchApi r = Except.ok b) := by
  refine ⟨?_, ?_, ?_, ?_, ?_⟩
  · intro r b hok
    simp [fetchApi, hok]
  · intro r b d hok hb hd hne
    simp [fetchApi, hok, hb, hd, hne]
  · intro r b hok hb hd
    rcases hd with hd | hd <;> simp [fetchApi, hok, hb, hd]
  · intro r hok hb
    simp [fetchApi, hok, hb]
  · intro r b hok hb
    simp [fetchApi, hok, hb]

/-- Witness for C10: concrete responses — a 404-style body with detail "Not
found" throws that detail; a non-ok response with unparseable body falls back
to "Request failed"; an ok response returns its parsed body. -/
theorem c10_fetchApi_error_handling_witness :
    fetchApi { ok := false,
               body := some { detail := some "Not found", payload := "" } }
      = Except.error "Not found" ∧
    fetchApi { ok := false, body := none } = Except.error "Request failed" ∧
    fetchApi { ok := true,
               body := some { detail := none, payload := "jobs" } }
      = Except.ok { detail := none, payload := "jobs" } :=
  ⟨c10_fetchApi_error_handling.2.1 _ _ "Not found" rfl rfl rfl (by decide),
   c10_fetchApi_error_handling.2.2.2.1 _ rfl rfl,
   c10_fetchApi_error_handling.2.2.2.2 _ _ rfl rfl⟩

/-- Counterexample for C10 as stated: a non-ok response whose body parses to a
JSON object with detail present but equal to the empty string — JavaScript's
`error.detail || "Request failed"` treats the empty string as falsy, so the
thrown message is "Request failed", not the body's detail field. -/
theorem c10_empty_detail_falls_back :
    fetchApi { ok := false, body := some { detail := some "", payload := "" } }
      = Except.error "Request failed" ∧
    ("Request failed" : String) ≠ "" :=
  ⟨rfl, by decide⟩

end Leadex

